import Mathlib

/-!
Shallow embedding of the ptoj-judger worker (src/judger/*.py) and proofs
about its judging pipeline.  Python dictionaries are modelled as
association lists, raised exceptions as `Except String`, and the external
sandbox HTTP service as an oracle supplying the response to each call the
pipeline makes.
-/

namespace PTOJ

/-- Verdict enumeration, from src/judger/models.py (class JudgeStatus). -/
inductive JudgeStatus
  | Pending
  | RunningJudge
  | CompileError
  | Accepted
  | RuntimeError
  | WrongAnswer
  | TimeLimitExceeded
  | MemoryLimitExceeded
  | OutputLimitExceeded
  | PresentationError
  | SystemError
  | RejudgePending
  | Skipped
  deriving DecidableEq, Repr

/-- Sandbox result status, from src/judger/models.py (class SandboxStatus). -/
inductive SandboxStatus
  | Accepted
  | MemoryLimitExceeded
  | TimeLimitExceeded
  | OutputLimitExceeded
  | FileError
  | NonzeroExitStatus
  | Signalled
  | InternalError
  deriving DecidableEq, Repr

/-- Language tags, from src/judger/models.py (class Language).  The enum
defines exactly these five members; there is no PyPy member. -/
inductive Language
  | C
  | Cpp11
  | Java
  | Python
  | Cpp17
  deriving DecidableEq, Repr

/-- Python attribute access `Language.<name>` on the enum class from
src/judger/models.py: `some` when the member exists, `none` when the
access would raise AttributeError. -/
def Language.attr : String → Option Language
  | "C" => some Language.C
  | "Cpp11" => some Language.Cpp11
  | "Java" => some Language.Java
  | "Python" => some Language.Python
  | "Cpp17" => some Language.Cpp17
  | _ => none

/-- Problem types, from src/judger/models.py (class ProblemType). -/
inductive ProblemType
  | Traditional
  | Interaction
  | SpecialJudge
  deriving DecidableEq, Repr

/-- Output size cap, from src/judger/config.py (DEFAULT_OUTPUT_LIMIT). -/
def DEFAULT_OUTPUT_LIMIT : Nat := 16 * 1024 * 1024

/-- File references passed to the sandbox, from src/judger/models.py:
LocalFile, MemoryFile, PreparedFile and the output-capture Collector. -/
inductive FileRef
  | localFile (src : String)
  | memoryFile (content : String)
  | preparedFile (fileId : String)
  | collector (name : String) (max : Nat)
  deriving DecidableEq, Repr

/-- Model of `Collector(name)` with the default max, as built in src/judger/judger.py. -/
def Collector (name : String) : FileRef :=
  FileRef.collector name DEFAULT_OUTPUT_LIMIT

/-- One sandbox invocation, from src/judger/models.py (class SandboxCmd).
`files` entries may be `none` (dangling fd, used for interactive piping);
dictionaries are association lists. -/
structure SandboxCmd where
  args : List String
  files : List (Option FileRef) := []
  cpuLimit : Nat := 10000000000
  clockLimit : Nat := 20000000000
  memoryLimit : Nat := 512 * 1024 * 1024
  copyIn : List (String × FileRef) := []
  copyOutCached : List String := []
  deriving DecidableEq, Repr

/-- One sandbox response, from src/judger/models.py (class SandboxResult).
`files` and `fileIds` are Optional dictionaries in the source, hence
`Option` of an association list here. -/
structure SandboxResult where
  status : SandboxStatus := SandboxStatus.InternalError
  exitStatus : Int := 0
  time : Nat := 0
  memory : Nat := 0
  files : Option (List (String × String)) := none
  fileIds : Option (List (String × String)) := none
  deriving DecidableEq, Repr

/-- A testcase, from src/judger/models.py (class Testcase). -/
structure Testcase where
  uuid : String
  input : FileRef
  output : FileRef
  deriving DecidableEq, Repr

/-- A submission, from src/judger/models.py (class Submission). -/
structure Submission where
  sid : Nat
  timeLimit : Nat
  memoryLimit : Nat
  testcases : List Testcase
  language : Language
  code : String
  type : ProblemType := ProblemType.Traditional
  additionCode : String := ""
  deriving DecidableEq, Repr

/-- Per-testcase verdict record, from src/judger/models.py
(class TestcaseResult), with its field defaults. -/
structure TestcaseResult where
  uuid : String
  time : Nat := 0
  memory : Nat := 0
  judge : JudgeStatus := JudgeStatus.Pending
  deriving DecidableEq, Repr

/-- Whole-submission verdict record, from src/judger/models.py
(class SubmissionResult), with its field defaults. -/
structure SubmissionResult where
  sid : Nat
  time : Nat := 0
  memory : Nat := 0
  testcases : List TestcaseResult := []
  judge : JudgeStatus := JudgeStatus.Pending
  error : String := ""
  deriving DecidableEq, Repr

/-- Per-language configuration, from src/judger/language.py
(class LanguageConfig).  The source field `run_cmd` is spelled `runCmd`
here. -/
structure LanguageConfig where
  source_filename : String
  compiled_filename : String
  need_compile : Bool
  compile_cmd : List String
  runCmd : List String
  time_factor : Nat := 1
  memory_factor : Nat := 1
  deriving DecidableEq, Repr

namespace LanguageRegistry

/-- Model of `LanguageRegistry.register`, from src/judger/language.py: fails with
ValueError when the tag is already registered. -/
def register (reg : List (Language × LanguageConfig)) (lang : Language)
    (config : LanguageConfig) : Except String (List (Language × LanguageConfig)) :=
  if (reg.lookup lang).isSome then
    Except.error "ValueError: language is already registered"
  else
    Except.ok (reg ++ [(lang, config)])

/-- Model of `LanguageRegistry.get_config`, from src/judger/language.py: fails with
ValueError for an unregistered tag. -/
def get_config (reg : List (Language × LanguageConfig)) (lang : Language) :
    Except String LanguageConfig :=
  match reg.lookup lang with
  | none => Except.error "ValueError: language is not registered"
  | some config => Except.ok config

end LanguageRegistry

/-- The C entry of the static registration block in src/judger/language.py. -/
def cConfig : LanguageConfig :=
  { source_filename := "Main.c"
    compiled_filename := "Main"
    need_compile := true
    compile_cmd := ["/usr/bin/gcc-12", "Main.c", "-o", "Main", "-std=c11",
      "-O2", "-lm", "-DONLINE_JUDGE", "-w", "-fmax-errors=3", "--static"]
    runCmd := ["./Main"] }

/-- The C++11 entry of the static registration block in src/judger/language.py. -/
def cpp11Config : LanguageConfig :=
  { source_filename := "Main.cpp"
    compiled_filename := "Main"
    need_compile := true
    compile_cmd := ["/usr/bin/g++-12", "Main.cpp", "-o", "Main", "-std=c++11",
      "-O2", "-lm", "-DONLINE_JUDGE", "-w", "-fmax-errors=3", "--static"]
    runCmd := ["./Main"] }

/-- The C++17 entry of the static registration block in src/judger/language.py. -/
def cpp17Config : LanguageConfig :=
  { source_filename := "Main.cpp"
    compiled_filename := "Main"
    need_compile := true
    compile_cmd := ["/usr/bin/g++-12", "Main.cpp", "-o", "Main", "-std=c++17",
      "-O2", "-lm", "-DONLINE_JUDGE", "-w", "-fmax-errors=3", "--static"]
    runCmd := ["./Main"] }

/-- The Java entry of the static registration block in src/judger/language.py. -/
def javaConfig : LanguageConfig :=
  { source_filename := "Main.java"
    compiled_filename := "Main.jar"
    need_compile := true
    compile_cmd := ["/usr/bin/bash", "-c", String.intercalate " "
      ["/usr/bin/javac", "Main.java", "-encoding", "UTF-8", "&&",
        "/usr/bin/jar", "cvf", "Main.jar", "*.class"]]
    runCmd := ["/usr/bin/java", "-DONLINE_JUDGE", "-cp", "Main.jar", "Main"]
    time_factor := 2
    memory_factor := 2 }

/-- The Python entry of the static registration block in src/judger/language.py. -/
def pythonConfig : LanguageConfig :=
  { source_filename := "Main.py"
    compiled_filename := "Main.pyc"
    need_compile := true
    compile_cmd := ["/usr/bin/bash", "-c", String.intercalate " "
      ["/usr/bin/python3.11", "-m", "py_compile", "Main.py", "&&",
        "mv", "__pycache__/Main.cpython-311.pyc", "Main.pyc"]]
    runCmd := ["/usr/bin/python3.11", "Main.pyc"] }

/-- The PyPy entry of the static registration block in src/judger/language.py. -/
def pypyConfig : LanguageConfig :=
  { source_filename := "Main.py"
    compiled_filename := "Main.pyc"
    need_compile := true
    compile_cmd := ["/usr/bin/bash", "-c", String.intercalate " "
      ["/usr/bin/pypy3", "-m", "py_compile", "Main.py", "&&",
        "mv", "__pycache__/Main.pypy39.pyc", "Main.pyc"]]
    runCmd := ["/usr/bin/pypy3", "Main.pyc"] }

/-- The enum member names referenced, in order, by the module-level
`LanguageRegistry.register(Language.<tag>, …)` calls in
src/judger/language.py, each paired with its configuration. -/
def languageInitEntries : List (String × LanguageConfig) :=
  [("C", cConfig), ("Cpp11", cpp11Config), ("Cpp17", cpp17Config),
    ("Java", javaConfig), ("Python", pythonConfig), ("PyPy", pypyConfig)]

/-- Process initialization of the registry: importing src/judger/language.py
executes the registration calls in order; evaluating `Language.<tag>`
raises AttributeError when models.py does not define the member. -/
def initRegistry : Except String (List (Language × LanguageConfig)) :=
  languageInitEntries.foldlM
    (fun reg entry =>
      match Language.attr entry.fst with
      | none => Except.error ("AttributeError: " ++ entry.fst)
      | some lang => LanguageRegistry.register reg lang entry.snd)
    []

namespace DefaultChecker

/-- Exit-code to verdict map of the default checker, from
src/judger/checker.py (DefaultChecker.STATUS_MAP). -/
def STATUS_MAP : List (Int × JudgeStatus) :=
  [(0, JudgeStatus.Accepted), (1, JudgeStatus.WrongAnswer),
    (2, JudgeStatus.PresentationError)]

/-- Tail of `DefaultChecker.check` from src/judger/checker.py: given the
sandbox result of the comparator run, either return the mapped verdict or
raise RuntimeError for an exit status outside the map. -/
def check (checker_result : SandboxResult) : Except String JudgeStatus :=
  match STATUS_MAP.lookup checker_result.exitStatus with
  | none => Except.error "RuntimeError: Checker failed with unexpected exit status"
  | some judge => Except.ok judge

end DefaultChecker

namespace TestlibChecker

/-- Tail of `TestlibChecker.check` from src/judger/checker.py: the verdict
is derived from the sandbox status, not the exit code. -/
def check (checker_result : SandboxResult) : JudgeStatus :=
  if checker_result.status = SandboxStatus.Accepted then
    JudgeStatus.Accepted
  else if checker_result.status = SandboxStatus.NonzeroExitStatus then
    JudgeStatus.WrongAnswer
  else
    JudgeStatus.SystemError

end TestlibChecker

/-- An HTTP response from the sandbox service, as seen by
src/judger/client.py: a status code and a body. -/
structure HttpResponse where
  status : Nat
  body : String
  deriving DecidableEq, Repr

namespace SandboxClient

/-- Model of the aiohttp method `resp.raise_for_status()`, used by `run_command` and
`upload_file` in src/judger/client.py: raises ClientResponseError for
status codes 400 and above. -/
def raise_for_status (resp : HttpResponse) : Except String Unit :=
  if 400 ≤ resp.status then
    Except.error ("aiohttp.ClientResponseError: " ++ toString resp.status)
  else
    Except.ok ()

/-- Model of `SandboxClient.run_command` from src/judger/client.py, as a function of
the HTTP response: raise_for_status, then parse the body. -/
def run_command (parse : String → List SandboxResult) (resp : HttpResponse) :
    Except String (List SandboxResult) := do
  raise_for_status resp
  Except.ok (parse resp.body)

/-- Model of `SandboxClient.upload_file` from src/judger/client.py, as a function of
the HTTP response: raise_for_status, then wrap the returned id. -/
def upload_file (resp : HttpResponse) : Except String FileRef := do
  raise_for_status resp
  Except.ok (FileRef.preparedFile resp.body)

/-- Model of `SandboxClient.download_file` from src/judger/client.py: returns the
body on status 200 and `none` otherwise; never raises on a bad status. -/
def download_file (resp : HttpResponse) : Except String (Option String) :=
  if resp.status = 200 then Except.ok (some resp.body) else Except.ok none

/-- Model of `SandboxClient.delete_file` from src/judger/client.py: returns True on
status 200 and False otherwise; never raises on a bad status. -/
def delete_file (resp : HttpResponse) : Except String Bool :=
  Except.ok (decide (resp.status = 200))

/-- Model of `SandboxClient.get_version` from src/judger/client.py: parses the body
without any status check. -/
def get_version (parse : String → List (String × String)) (resp : HttpResponse) :
    Except String (List (String × String)) :=
  Except.ok (parse resp.body)

end SandboxClient

namespace Judger

/-- Aggregation priority list, from src/judger/judger.py
(Judger.STATUS_PRIORITY). -/
def STATUS_PRIORITY : List JudgeStatus :=
  [JudgeStatus.SystemError, JudgeStatus.OutputLimitExceeded,
    JudgeStatus.MemoryLimitExceeded, JudgeStatus.TimeLimitExceeded,
    JudgeStatus.RuntimeError, JudgeStatus.WrongAnswer,
    JudgeStatus.PresentationError]

/-- Sandbox-status to verdict map, from src/judger/judger.py
(Judger.STATUS_MAP). -/
def STATUS_MAP : SandboxStatus → Option JudgeStatus
  | SandboxStatus.MemoryLimitExceeded => some JudgeStatus.MemoryLimitExceeded
  | SandboxStatus.TimeLimitExceeded => some JudgeStatus.TimeLimitExceeded
  | SandboxStatus.OutputLimitExceeded => some JudgeStatus.OutputLimitExceeded
  | SandboxStatus.NonzeroExitStatus => some JudgeStatus.RuntimeError
  | SandboxStatus.Signalled => some JudgeStatus.RuntimeError
  | _ => none

/-- Membership in Judger.SKIP_STATUS, from src/judger/judger.py. -/
def SKIP_STATUS (judge : JudgeStatus) : Bool :=
  judge = JudgeStatus.MemoryLimitExceeded ∨
    judge = JudgeStatus.TimeLimitExceeded ∨
    judge = JudgeStatus.OutputLimitExceeded

/-- The verdict aggregation at the end of `Judger.run`
(src/judger/judger.py lines 387 to 405): all Accepted gives Accepted,
otherwise the first STATUS_PRIORITY entry present among the results,
otherwise the defensive SystemError of the final else branch. -/
def aggregate (results : List TestcaseResult) : JudgeStatus :=
  if results.all (fun r => decide (r.judge = JudgeStatus.Accepted)) then
    JudgeStatus.Accepted
  else
    match STATUS_PRIORITY.find? (fun s => results.any (fun r => decide (r.judge = s))) with
    | some s => s
    | none => JudgeStatus.SystemError

end Judger

/-- Environment responses for one testcase iteration: the `/run` response
for the user program (traditional path), the checker outcome (traditional
path, only consulted on an Accepted run), and the paired user/interactor
responses (interaction path). -/
structure TestcaseOracle where
  runResult : Except String SandboxResult
  checkResult : Except String JudgeStatus
  pairResult : Except String (SandboxResult × SandboxResult)

/-- Environment responses for one whole pipeline run: the user-code compile
response, the checker-compile outcome (the file id of the compiled checker
binary on success), and one `TestcaseOracle` per testcase position. -/
structure RunOracle where
  compileResult : Except String SandboxResult
  checkerCompile : Except String String
  tc : Nat → TestcaseOracle

/-- Outcome of one `run_testcase` call: the command issued for the user
program, the PreparedFile ids the call obtained from the sandbox, the
delete tasks it appended to `cleanup_tasks`, and the returned result or
the exception it raised. -/
structure TCRun where
  cmd : SandboxCmd
  created : List String
  scheduled : List String
  outcome : Except String TestcaseResult
  deriving Repr

/-- Model of `get_runtime_dependencies` from src/judger/judger.py: the compiled
artifact for compiled languages, the raw source otherwise.  The run loop
only reaches this with `compiled_file` set when `need_compile` holds. -/
def runtimeDependencies (cfg : LanguageConfig) (code : String)
    (compiled_file : Option String) : List (String × FileRef) :=
  if cfg.need_compile then
    [(cfg.compiled_filename, FileRef.preparedFile (compiled_file.getD ""))]
  else
    [(cfg.source_filename, FileRef.memoryFile code)]

namespace Judger

/-- Model of `Judger.run_testcase_tradition` from src/judger/judger.py (lines 143
to 210), with the sandbox response and the checker outcome supplied by the
oracle.  The stdout delete task is appended only after the checker (or the
status map) produced a verdict; an exception raised earlier leaves the
captured stdout file unscheduled. -/
def run_testcase_tradition (cfg : LanguageConfig) (sub : Submission)
    (compiled_file : Option String) (orc : TestcaseOracle) (testcase : Testcase) :
    TCRun :=
  let timeLimit := 1000000 * sub.timeLimit * cfg.time_factor
  let memoryLimit := 1024 * sub.memoryLimit * cfg.memory_factor
  let cmd : SandboxCmd :=
    { args := cfg.runCmd
      cpuLimit := timeLimit
      clockLimit := timeLimit * 2
      memoryLimit := memoryLimit
      files := [some testcase.input, some (Collector "stdout"), some (Collector "stderr")]
      copyIn := runtimeDependencies cfg sub.code compiled_file
      copyOutCached := ["stdout"] }
  let rest : List String × List String × Except String TestcaseResult :=
    match orc.runResult with
    | Except.error e => ⟨[], [], Except.error e⟩
    | Except.ok run_result =>
      match run_result.fileIds with
      | none => ⟨[], [], Except.error "TypeError: fileIds is None"⟩
      | some fileIds =>
        match fileIds.lookup "stdout" with
        | none => ⟨[], [], Except.error "KeyError: stdout"⟩
        | some output_file =>
          let time := min run_result.time timeLimit / 1000000
          let memory := min run_result.memory memoryLimit / 1024
          if run_result.status = SandboxStatus.Accepted then
            match orc.checkResult with
            | Except.error e => ⟨[output_file], [], Except.error e⟩
            | Except.ok judge =>
              ⟨[output_file], [output_file],
                Except.ok ⟨testcase.uuid, time, memory, judge⟩⟩
          else
            let judge := (STATUS_MAP run_result.status).getD JudgeStatus.SystemError
            ⟨[output_file], [output_file],
              Except.ok ⟨testcase.uuid, time, memory, judge⟩⟩
  ⟨cmd, rest.fst, rest.snd.fst, rest.snd.snd⟩

/-- Model of `Judger.run_testcase_interaction` from src/judger/judger.py (lines 212
to 292): a user command and an interactor command issued as one paired
`/run`; neither command caches output files, so nothing is created or
scheduled. -/
def run_testcase_interaction (cfg : LanguageConfig) (sub : Submission)
    (compiled_file : Option String) (checker_file : Option String)
    (orc : TestcaseOracle) (testcase : Testcase) : TCRun :=
  let timeLimit := 1000000 * sub.timeLimit * cfg.time_factor
  let memoryLimit := 1024 * sub.memoryLimit * cfg.memory_factor
  let cmdUser : SandboxCmd :=
    { args := cfg.runCmd
      cpuLimit := timeLimit
      clockLimit := timeLimit * 2
      memoryLimit := memoryLimit
      files := [none, none, some (Collector "stderr")]
      copyIn := runtimeDependencies cfg sub.code compiled_file }
  let _cmdInteractor : SandboxCmd :=
    { args := ["./Interactor", "infile", "outfile", "ansfile"]
      files := [none, none, some (Collector "stderr")]
      copyIn := [("Interactor", FileRef.preparedFile (checker_file.getD "")),
        ("infile", testcase.input), ("outfile", FileRef.memoryFile ""),
        ("ansfile", testcase.output)] }
  let outcome : Except String TestcaseResult :=
    match orc.pairResult with
    | Except.error e => Except.error e
    | Except.ok results =>
      let user_result := results.fst
      let interactor_result := results.snd
      let time := min user_result.time timeLimit / 1000000
      let memory := min user_result.memory memoryLimit / 1024
      let judge :=
        if user_result.status ≠ SandboxStatus.Accepted then
          (STATUS_MAP user_result.status).getD JudgeStatus.SystemError
        else if interactor_result.status ≠ SandboxStatus.Accepted then
          JudgeStatus.WrongAnswer
        else
          JudgeStatus.Accepted
      Except.ok ⟨testcase.uuid, time, memory, judge⟩
  ⟨cmdUser, [], [], outcome⟩

/-- Model of `Judger.run_testcase` from src/judger/judger.py: dispatch on the
submission type. -/
def run_testcase (cfg : LanguageConfig) (sub : Submission)
    (compiled_file : Option String) (checker_file : Option String)
    (orc : TestcaseOracle) (testcase : Testcase) : TCRun :=
  if sub.type = ProblemType.Interaction then
    run_testcase_interaction cfg sub compiled_file checker_file orc testcase
  else
    run_testcase_tradition cfg sub compiled_file orc testcase

/-- The per-testcase exception handler of the loop in `Judger.run`
(src/judger/judger.py lines 357 to 367): a raised exception becomes a
SystemError result for that testcase. -/
def catch_testcase (testcase : Testcase) (outcome : Except String TestcaseResult) :
    TestcaseResult :=
  match outcome with
  | Except.ok r => r
  | Except.error _ => ⟨testcase.uuid, 0, 0, JudgeStatus.SystemError⟩

/-- Accumulated output of the testcase loop. -/
structure LoopOut where
  results : List TestcaseResult
  created : List String
  scheduled : List String
  deriving Repr

/-- The testcase loop of `Judger.run` (src/judger/judger.py lines 349 to
371): once `skipped` is set by a verdict in SKIP_STATUS, the remaining
testcases are recorded as Skipped with zero resources; an exception makes
the testcase a SystemError and the loop continues.  `i` is the absolute
position used to address the oracle. -/
def testcase_loop (runTC : Nat → Testcase → TCRun) :
    Nat → Bool → List Testcase → LoopOut
  | _, _, [] => ⟨[], [], []⟩
  | i, skipped, testcase :: rest =>
    if skipped then
      let out := testcase_loop runTC (i + 1) true rest
      ⟨⟨testcase.uuid, 0, 0, JudgeStatus.Skipped⟩ :: out.results,
        out.created, out.scheduled⟩
    else
      let r := runTC i testcase
      let testcase_result := catch_testcase testcase r.outcome
      let out := testcase_loop runTC (i + 1) (SKIP_STATUS testcase_result.judge) rest
      ⟨testcase_result :: out.results,
        r.created ++ out.created, r.scheduled ++ out.scheduled⟩

/-- The testcase loop as `Judger.run` invokes it: positions start at 0,
skipping starts disengaged, and each iteration runs `run_testcase` against
the oracle entry for its position. -/
def runLoop (cfg : LanguageConfig) (sub : Submission)
    (compiled_file : Option String) (checker_file : Option String)
    (orc : RunOracle) : LoopOut :=
  testcase_loop
    (fun i testcase =>
      run_testcase cfg sub compiled_file checker_file (orc.tc i) testcase)
    0 false sub.testcases

/-- Pipeline state carried by a Judger instance: the `SubmissionResult`
fields together with `compiled_file`, the pending `cleanup_tasks`, and
bookkeeping of every PreparedFile id obtained from the sandbox. -/
structure JState where
  judge : JudgeStatus
  error : String
  tcResults : List TestcaseResult
  time : Nat
  memory : Nat
  compiled_file : Option String
  cleanup_tasks : List String
  created : List String
  runCalls : Nat
  deriving Repr

/-- A Judger instance: the submission plus the language configuration
looked up in `__init__` (absent when the lookup raised) and the state. -/
structure Inst where
  sub : Submission
  language : Option LanguageConfig
  st : JState
  deriving Repr

/-- Model of `Judger.__init__` from src/judger/judger.py (lines 52 to 93): the
language lookup failure is caught and recorded as an overall SystemError;
the checker is chosen internally from the submission type. -/
def init (reg : List (Language × LanguageConfig)) (sub : Submission) : Inst :=
  let language := (LanguageRegistry.get_config reg sub.language).toOption
  { sub := sub
    language := language
    st :=
      { judge := if language.isNone then JudgeStatus.SystemError else JudgeStatus.Pending
        error := ""
        tcResults := []
        time := 0
        memory := 0
        compiled_file := none
        cleanup_tasks := []
        created := []
        runCalls := 0 } }

/-- Model of `Judger.compile` from src/judger/judger.py (lines 95 to 141): a
non-Accepted sandbox status yields CompileError with the captured stderr;
a transport failure or a missing artifact id yields SystemError. -/
def compileStep (cfg : LanguageConfig) (res : Except String SandboxResult)
    (j : Inst) : Inst :=
  if j.st.compiled_file.isSome then j
  else
    let j := { j with st := { j.st with runCalls := j.st.runCalls + 1 } }
    match res with
    | Except.error _ =>
      { j with st := { j.st with judge := JudgeStatus.SystemError } }
    | Except.ok compiled_result =>
      if compiled_result.status ≠ SandboxStatus.Accepted then
        match compiled_result.files with
        | none => { j with st := { j.st with judge := JudgeStatus.SystemError } }
        | some files =>
          { j with st := { j.st with
              judge := JudgeStatus.CompileError
              error := (files.lookup "stderr").getD "" } }
      else
        match compiled_result.fileIds with
        | none => { j with st := { j.st with judge := JudgeStatus.SystemError } }
        | some fileIds =>
          match fileIds.lookup cfg.compiled_filename with
          | none => { j with st := { j.st with judge := JudgeStatus.SystemError } }
          | some fid =>
            { j with st := { j.st with
                compiled_file := some fid
                created := j.st.created ++ [fid] } }

/-- Model of `Judger.run` from src/judger/judger.py (lines 314 to 405). -/
def run (orc : RunOracle) (j : Inst) : Inst :=
  if j.st.judge ≠ JudgeStatus.Pending then j
  else
    match j.language with
    | none =>
      -- judge is Pending only when __init__ found the language; accessing
      -- the unset attribute would raise, caught at the get_result boundary.
      { j with st := { j.st with judge := JudgeStatus.SystemError } }
    | some cfg =>
      let j := if cfg.need_compile then compileStep cfg orc.compileResult j else j
      if j.st.judge ≠ JudgeStatus.Pending then j
      else if cfg.need_compile ∧ j.st.compiled_file = none then
        { j with st := { j.st with judge := JudgeStatus.SystemError } }
      else if j.sub.testcases.isEmpty then
        { j with st := { j.st with judge := JudgeStatus.SystemError } }
      else
        let j := { j with st := { j.st with runCalls := j.st.runCalls + 1 } }
        match orc.checkerCompile with
        | Except.error _ =>
          { j with st := { j.st with judge := JudgeStatus.SystemError } }
        | Except.ok checker_file =>
          let j := { j with st := { j.st with created := j.st.created ++ [checker_file] } }
          let out := runLoop cfg j.sub j.st.compiled_file (some checker_file) orc
          let j := { j with st := { j.st with
              tcResults := out.results
              created := j.st.created ++ out.created
              cleanup_tasks := j.st.cleanup_tasks ++ out.scheduled
              runCalls := j.st.runCalls + out.results.length } }
          if out.results.isEmpty then
            { j with st := { j.st with judge := JudgeStatus.SystemError } }
          else
            { j with st := { j.st with
                time := (out.results.map TestcaseResult.time).foldl max 0
                memory := (out.results.map TestcaseResult.memory).foldl max 0
                judge := aggregate out.results } }

/-- Output of `get_result`: the returned `SubmissionResult`, the ids whose
deletion was awaited by cleanup, the ids created during the run, and the
number of sandbox calls made. -/
structure ResultOut where
  result : SubmissionResult
  compiled_file : Option String
  scheduled : List String
  deletes : List String
  created : List String
  runCalls : Nat
  deriving Repr

/-- The `SubmissionResult` assembled from the state. -/
def toResult (j : Inst) : SubmissionResult :=
  { sid := j.sub.sid
    time := j.st.time
    memory := j.st.memory
    testcases := j.st.tcResults
    judge := j.st.judge
    error := j.st.error }

/-- Model of `Judger.get_result` together with `Judger.cleanup` from
src/judger/judger.py (lines 300 to 312 and 407 to 428): when the stored
judge is still Pending, run the pipeline and then await every pending
delete task plus the delete of the compiled artifact; otherwise return
the stored result, making no sandbox call at all. -/
def get_result (reg : List (Language × LanguageConfig)) (sub : Submission)
    (orc : RunOracle) : ResultOut :=
  let j := init reg sub
  if j.st.judge = JudgeStatus.Pending then
    let j := run orc j
    let deletes := j.st.cleanup_tasks ++
      (match j.st.compiled_file with
        | some fid => [fid]
        | none => [])
    { result := toResult j
      compiled_file := j.st.compiled_file
      scheduled := j.st.cleanup_tasks
      deletes := deletes
      created := j.st.created
      runCalls := j.st.runCalls }
  else
    { result := toResult j
      compiled_file := j.st.compiled_file
      scheduled := j.st.cleanup_tasks
      deletes := []
      created := j.st.created
      runCalls := 0 }

/-- Number of parameters of `Judger.__init__` after `self`, from
src/judger/judger.py lines 52 to 56: `client` and `submission`. -/
def initParamCount : Nat := 2

end Judger

namespace Processor

/-- Number of positional arguments the worker loop passes to the `Judger`
constructor at src/judger/scheduler.py line 99:
`Judger(self.client, submission, self.checker)`. -/
def judgerCallArgCount : Nat := 3

/-- Python positional-call compatibility for a signature with only plain
positional parameters (no defaults, no varargs): the call raises TypeError
unless the argument count matches the parameter count. -/
def pyCallOk (params args : Nat) : Bool := args = params

/-- Model of `Processor.process` from src/judger/scheduler.py (lines 98 to 121),
with the judged result the pipeline would produce supplied as a parameter:
if constructing the Judger raises, the except branch publishes a bare
SystemError result for the submission. -/
def process (sub : Submission) (pipelineResult : SubmissionResult) :
    SubmissionResult :=
  if pyCallOk Judger.initParamCount judgerCallArgCount then
    pipelineResult
  else
    { sid := sub.sid, judge := JudgeStatus.SystemError }

end Processor

/-- C9: the claim says process initialization registers C, C++11, C++17,
Java, Python and PyPy and lookup of each succeeds.  In fact
src/judger/models.py defines no `PyPy` member of `Language`, so the
module-level registration block of src/judger/language.py raises
AttributeError when it evaluates `Language.PyPy`: initialization fails
before the registry is fully populated.  The duplicate-registration and
unknown-lookup failures themselves behave as claimed. -/
theorem language_registry_init_raises_on_pypy :
    initRegistry = Except.error "AttributeError: PyPy" ∧
    Language.attr "PyPy" = none ∧
    LanguageRegistry.register [(Language.C, cConfig)] Language.C cConfig =
      Except.error "ValueError: language is already registered" ∧
    LanguageRegistry.get_config [] Language.C =
      Except.error "ValueError: language is not registered" :=
  ⟨rfl, rfl, rfl, rfl⟩

/-- C1: the claim says the three-argument worker-loop construction
`Judger(client, submission, checker)` succeeds and yields the judged
result.  In fact `Judger.__init__` in src/judger/judger.py takes only
`(client, submission)`, so the call at src/judger/scheduler.py line 99
raises TypeError and `Processor.process` publishes a bare SystemError
result for every submission, whatever the pipeline would have answered. -/
theorem processor_call_raises_type_error (sub : Submission)
    (pipelineResult : SubmissionResult) :
    Processor.pyCallOk Judger.initParamCount Processor.judgerCallArgCount = false ∧
    Processor.process sub pipelineResult =
      { sid := sub.sid, judge := JudgeStatus.SystemError } :=
  ⟨rfl, rfl⟩

/-- C6 counterexample: at comparator exit code 3, `DefaultChecker.check`
raises RuntimeError instead of returning any JudgeStatus, so it does not
yield SystemError as the claim states. -/
theorem default_checker_exit3_raises :
    DefaultChecker.check { exitStatus := 3 } =
      Except.error "RuntimeError: Checker failed with unexpected exit status" ∧
    (DefaultChecker.check { exitStatus := 3 }).isOk = false ∧
    DefaultChecker.check { exitStatus := 3 } ≠ Except.ok JudgeStatus.SystemError :=
  ⟨rfl, rfl, fun h => nomatch h⟩

/-- C6 amended: `DefaultChecker.check` returns Accepted, WrongAnswer or
PresentationError for exit codes 0, 1 and 2, and raises RuntimeError for
every other exit code; the per-testcase exception handler of the run loop
then records SystemError for that testcase. -/
theorem default_checker_exit_code_protocol (r : SandboxResult) :
    (r.exitStatus = 0 → DefaultChecker.check r = Except.ok JudgeStatus.Accepted) ∧
    (r.exitStatus = 1 → DefaultChecker.check r = Except.ok JudgeStatus.WrongAnswer) ∧
    (r.exitStatus = 2 → DefaultChecker.check r = Except.ok JudgeStatus.PresentationError) ∧
    (r.exitStatus ≠ 0 → r.exitStatus ≠ 1 → r.exitStatus ≠ 2 →
      DefaultChecker.check r =
        Except.error "RuntimeError: Checker failed with unexpected exit status") ∧
    (∀ t e, Judger.catch_testcase t (Except.error e) =
      { uuid := t.uuid, time := 0, memory := 0, judge := JudgeStatus.SystemError }) := by
  refine ⟨?_, ?_, ?_, ?_, ?_⟩
  · intro h
    simp [DefaultChecker.check, DefaultChecker.STATUS_MAP, List.lookup, h]
  · intro h
    simp [DefaultChecker.check, DefaultChecker.STATUS_MAP, List.lookup, h]
  · intro h
    simp [DefaultChecker.check, DefaultChecker.STATUS_MAP, List.lookup, h]
  · intro h0 h1 h2
    have e0 : (r.exitStatus == 0) = false := beq_eq_false_iff_ne.mpr h0
    have e1 : (r.exitStatus == 1) = false := beq_eq_false_iff_ne.mpr h1
    have e2 : (r.exitStatus == 2) = false := beq_eq_false_iff_ne.mpr h2
    simp [DefaultChecker.check, DefaultChecker.STATUS_MAP, List.lookup, e0, e1, e2]
  · intro t e
    rfl

/-- C6 witness: the amended protocol evaluated at concrete exit codes. -/
theorem default_checker_exit_code_protocol_witness :
    DefaultChecker.check { exitStatus := 1 } = Except.ok JudgeStatus.WrongAnswer ∧
    DefaultChecker.check { exitStatus := 7 } =
      Except.error "RuntimeError: Checker failed with unexpected exit status" :=
  ⟨(default_checker_exit_code_protocol { exitStatus := 1 }).2.1 rfl,
    (default_checker_exit_code_protocol { exitStatus := 7 }).2.2.2.1
      (by decide) (by decide) (by decide)⟩

/-- C8 counterexample: on a non-2xx response, `delete_file` returns False,
`download_file` returns None and `get_version` still parses the body; none
of them fails with any error, let alone a SandboxError (no such type
exists in src/judger/client.py). -/
theorem client_non2xx_returns_normally :
    SandboxClient.delete_file { status := 500, body := "oops" } = Except.ok false ∧
    SandboxClient.download_file { status := 404, body := "missing" } =
      Except.ok none ∧
    SandboxClient.get_version (fun _ => []) { status := 500, body := "oops" } =
      Except.ok [] :=
  ⟨rfl, rfl, rfl⟩

/-- C8 amended: `run_command` and `upload_file` raise the aiohttp
ClientResponseError for status 400 and above; `delete_file` returns a
Bool, `download_file` an Option and `get_version` the parsed body for
every status, without raising. -/
theorem client_status_handling (resp : HttpResponse)
    (parse : String → List SandboxResult)
    (vparse : String → List (String × String)) :
    (400 ≤ resp.status → SandboxClient.run_command parse resp =
      Except.error ("aiohttp.ClientResponseError: " ++ toString resp.status)) ∧
    (400 ≤ resp.status → SandboxClient.upload_file resp =
      Except.error ("aiohttp.ClientResponseError: " ++ toString resp.status)) ∧
    (resp.status < 400 → SandboxClient.run_command parse resp =
      Except.ok (parse resp.body)) ∧
    SandboxClient.delete_file resp = Except.ok (decide (resp.status = 200)) ∧
    SandboxClient.download_file resp =
      Except.ok (if resp.status = 200 then some resp.body else none) ∧
    SandboxClient.get_version vparse resp = Except.ok (vparse resp.body) := by
  refine ⟨?_, ?_, ?_, rfl, ?_, rfl⟩
  · intro h
    simp [SandboxClient.run_command, SandboxClient.raise_for_status, h,
      Bind.bind, Except.bind]
  · intro h
    simp [SandboxClient.upload_file, SandboxClient.raise_for_status, h,
      Bind.bind, Except.bind]
  · intro h
    simp [SandboxClient.run_command, SandboxClient.raise_for_status,
      Nat.not_le.mpr h, Bind.bind, Except.bind]
  · unfold SandboxClient.download_file
    split <;> rfl

/-- Generic lemma: `find?` returns the head of the first satisfying suffix: used to read
the walk over STATUS_PRIORITY positionally. -/
theorem find_eq_of_split {α : Type} (p : α → Bool) (l₁ l₂ : List α) (s : α)
    (h₁ : ∀ x ∈ l₁, p x = false) (h₂ : p s = true) :
    (l₁ ++ s :: l₂).find? p = some s := by
  induction l₁ with
  | nil => simp [List.find?_cons_of_pos, h₂]
  | cons a l ih =>
    have ha : p a = false := h₁ a (List.mem_cons_self a l)
    have hl : ∀ x ∈ l, p x = false := fun x hx => h₁ x (List.mem_cons_of_mem a hx)
    simpa [List.find?_cons_of_neg, ha] using ih hl

/-- C2: the verdict aggregation of `Judger.run`.  All-Accepted results
give Accepted; otherwise the overall judge is the first entry of
STATUS_PRIORITY occurring among the testcase verdicts; when no listed
verdict occurs, the defensive else branch yields SystemError. -/
theorem aggregate_priority (results : List TestcaseResult)
    (l₁ l₂ : List JudgeStatus) (s : JudgeStatus) :
    ((∀ r ∈ results, r.judge = JudgeStatus.Accepted) →
      Judger.aggregate results = JudgeStatus.Accepted) ∧
    (¬ (∀ r ∈ results, r.judge = JudgeStatus.Accepted) →
      Judger.STATUS_PRIORITY = l₁ ++ s :: l₂ →
      (∃ r ∈ results, r.judge = s) →
      (∀ p ∈ l₁, ∀ r ∈ results, r.judge ≠ p) →
      Judger.aggregate results = s) ∧
    (¬ (∀ r ∈ results, r.judge = JudgeStatus.Accepted) →
      (∀ p ∈ Judger.STATUS_PRIORITY, ∀ r ∈ results, r.judge ≠ p) →
      Judger.aggregate results = JudgeStatus.SystemError) := by
  have hall : results.all (fun r => decide (r.judge = JudgeStatus.Accepted)) = true ↔
      ∀ r ∈ results, r.judge = JudgeStatus.Accepted := by
    simp [List.all_eq_true]
  refine ⟨?_, ?_, ?_⟩
  · intro h
    unfold Judger.aggregate
    rw [if_pos (hall.mpr h)]
  · intro hna hsplit hmem hnone
    unfold Judger.aggregate
    rw [if_neg (fun hc => hna (hall.mp hc)), hsplit]
    rw [find_eq_of_split]
    · intro x hx
      simp only [List.any_eq_false, decide_eq_true_eq]
      intro r hr
      exact hnone x hx r hr
    · obtain ⟨r, hr, hjs⟩ := hmem
      simp only [List.any_eq_true, decide_eq_true_eq]
      exact ⟨r, hr, hjs⟩
  · intro hna hnone
    unfold Judger.aggregate
    rw [if_neg (fun hc => hna (hall.mp hc))]
    have : Judger.STATUS_PRIORITY.find?
        (fun s => results.any (fun r => decide (r.judge = s))) = none := by
      rw [List.find?_eq_none]
      intro x hx
      simp only [List.any_eq_true, decide_eq_true_eq, not_exists]
      intro r hr
      exact hnone x hx r hr.1 hr.2
    rw [this]

/-- C2 witness: aggregation at a concrete mixed result list, picking
WrongAnswer as the first priority entry present. -/
theorem aggregate_priority_witness :
    Judger.aggregate
      [{ uuid := "a", time := 1, memory := 2, judge := JudgeStatus.Accepted },
        { uuid := "b", time := 3, memory := 4, judge := JudgeStatus.WrongAnswer }] =
      JudgeStatus.WrongAnswer :=
  (aggregate_priority
    [{ uuid := "a", time := 1, memory := 2, judge := JudgeStatus.Accepted },
      { uuid := "b", time := 3, memory := 4, judge := JudgeStatus.WrongAnswer }]
    [JudgeStatus.SystemError, JudgeStatus.OutputLimitExceeded,
      JudgeStatus.MemoryLimitExceeded, JudgeStatus.TimeLimitExceeded,
      JudgeStatus.RuntimeError]
    [JudgeStatus.PresentationError] JudgeStatus.WrongAnswer).2.1
    (by decide) rfl (by decide) (by decide)

/-- C7: both testcase runners hand the sandbox
`cpuLimit = timeLimit(ms)·timeFactor·1e6`,
`memoryLimit = memoryLimit(KiB)·memoryFactor·1024` and a wall-clock limit
of twice the cpu limit, and clamp the reported resources to those limits
before converting to ms and KiB. -/
theorem testcase_limits (cfg : LanguageConfig) (sub : Submission)
    (cf chk : Option String) (orc : TestcaseOracle) (tc : Testcase) :
    ((Judger.run_testcase_tradition cfg sub cf orc tc).cmd.cpuLimit =
        sub.timeLimit * cfg.time_factor * 1000000 ∧
      (Judger.run_testcase_tradition cfg sub cf orc tc).cmd.clockLimit =
        2 * (Judger.run_testcase_tradition cfg sub cf orc tc).cmd.cpuLimit ∧
      (Judger.run_testcase_tradition cfg sub cf orc tc).cmd.memoryLimit =
        sub.memoryLimit * cfg.memory_factor * 1024) ∧
    (∀ rr res, orc.runResult = Except.ok rr →
      (Judger.run_testcase_tradition cfg sub cf orc tc).outcome = Except.ok res →
      res.time = min rr.time (1000000 * sub.timeLimit * cfg.time_factor) / 1000000 ∧
      res.memory = min rr.memory (1024 * sub.memoryLimit * cfg.memory_factor) / 1024) ∧
    ((Judger.run_testcase_interaction cfg sub cf chk orc tc).cmd.cpuLimit =
        sub.timeLimit * cfg.time_factor * 1000000 ∧
      (Judger.run_testcase_interaction cfg sub cf chk orc tc).cmd.clockLimit =
        2 * (Judger.run_testcase_interaction cfg sub cf chk orc tc).cmd.cpuLimit ∧
      (Judger.run_testcase_interaction cfg sub cf chk orc tc).cmd.memoryLimit =
        sub.memoryLimit * cfg.memory_factor * 1024) ∧
    (∀ ur ir res, orc.pairResult = Except.ok (ur, ir) →
      (Judger.run_testcase_interaction cfg sub cf chk orc tc).outcome = Except.ok res →
      res.time = min ur.time (1000000 * sub.timeLimit * cfg.time_factor) / 1000000 ∧
      res.memory = min ur.memory (1024 * sub.memoryLimit * cfg.memory_factor) / 1024) := by
  refine ⟨⟨?_, ?_, ?_⟩, ?_, ⟨?_, ?_, ?_⟩, ?_⟩
  · show 1000000 * sub.timeLimit * cfg.time_factor =
      sub.timeLimit * cfg.time_factor * 1000000
    ring
  · show 1000000 * sub.timeLimit * cfg.time_factor * 2 =
      2 * (1000000 * sub.timeLimit * cfg.time_factor)
    ring
  · show 1024 * sub.memoryLimit * cfg.memory_factor =
      sub.memoryLimit * cfg.memory_factor * 1024
    ring
  · intro rr res h1 h2
    simp only [Judger.run_testcase_tradition, h1] at h2
    split at h2
    · exact Except.noConfusion h2
    · split at h2
      · exact Except.noConfusion h2
      · split at h2
        · split at h2
          · exact Except.noConfusion h2
          · obtain ⟨rfl⟩ := Except.ok.inj h2
            exact ⟨rfl, rfl⟩
        · obtain ⟨rfl⟩ := Except.ok.inj h2
          exact ⟨rfl, rfl⟩
  · show 1000000 * sub.timeLimit * cfg.time_factor =
      sub.timeLimit * cfg.time_factor * 1000000
    ring
  · show 1000000 * sub.timeLimit * cfg.time_factor * 2 =
      2 * (1000000 * sub.timeLimit * cfg.time_factor)
    ring
  · show 1024 * sub.memoryLimit * cfg.memory_factor =
      sub.memoryLimit * cfg.memory_factor * 1024
    ring
  · intro ur ir res h1 h2
    simp only [Judger.run_testcase_interaction, h1] at h2
    obtain ⟨rfl⟩ := Except.ok.inj h2
    exact ⟨rfl, rfl⟩

/-- C7 witness: the scaled limits and clamped normalization at a concrete
Java-factor configuration and a concrete sandbox report. -/
theorem testcase_limits_witness :
    (Judger.run_testcase_tradition javaConfig
        { sid := 1, timeLimit := 1000, memoryLimit := 32768,
          testcases := [], language := Language.Java, code := "x" }
        (some "bin")
        { runResult := Except.ok
            { status := SandboxStatus.Accepted, time := 3000000000,
              memory := 99999999999,
              fileIds := some [("stdout", "out0")] }
          checkResult := Except.ok JudgeStatus.Accepted
          pairResult := Except.error "" }
        { uuid := "t", input := FileRef.memoryFile "1",
          output := FileRef.memoryFile "2" }).cmd.cpuLimit =
      1000 * 2 * 1000000 ∧
    (Judger.run_testcase_tradition javaConfig
        { sid := 1, timeLimit := 1000, memoryLimit := 32768,
          testcases := [], language := Language.Java, code := "x" }
        (some "bin")
        { runResult := Except.ok
            { status := SandboxStatus.Accepted, time := 3000000000,
              memory := 99999999999,
              fileIds := some [("stdout", "out0")] }
          checkResult := Except.ok JudgeStatus.Accepted
          pairResult := Except.error "" }
        { uuid := "t", input := FileRef.memoryFile "1",
          output := FileRef.memoryFile "2" }).outcome =
      Except.ok
        { uuid := "t", time := 2000, memory := 65536,
          judge := JudgeStatus.Accepted } := by
  have h := testcase_limits javaConfig
    { sid := 1, timeLimit := 1000, memoryLimit := 32768,
      testcases := [], language := Language.Java, code := "x" }
    (some "bin") none
    { runResult := Except.ok
        { status := SandboxStatus.Accepted, time := 3000000000,
          memory := 99999999999,
          fileIds := some [("stdout", "out0")] }
      checkResult := Except.ok JudgeStatus.Accepted
      pairResult := Except.error "" }
    { uuid := "t", input := FileRef.memoryFile "1",
      output := FileRef.memoryFile "2" }
  refine ⟨h.1.1.trans (by decide), ?_⟩
  have h4 := h.2.1 _
    { uuid := "t", time := 2000, memory := 65536,
      judge := JudgeStatus.Accepted } rfl rfl
  exact rfl

/-- A concrete submission with no testcases (the Python language tag, as
as in the empty-testcase test shipped with the repository). -/
def emptySub : Submission :=
  { sid := 1, timeLimit := 1000, memoryLimit := 32768, testcases := [],
    language := Language.Python, code := "x" }

/-- A sandbox oracle whose compile call succeeds, returning the cached
artifact id bin1, and whose checker compile returns the binary id chk. -/
def okCompileOracle : RunOracle :=
  { compileResult := Except.ok
      { status := SandboxStatus.Accepted,
        fileIds := some [("Main.pyc", "bin1")] }
    checkerCompile := Except.ok "chk"
    tc := fun _ =>
      { runResult := Except.error "unreached", checkResult := Except.error "unreached",
        pairResult := Except.error "unreached" } }

/-- C5 counterexample: on an empty testcase list the pipeline does end
with SystemError and no testcase results, but `result.error` stays the
default empty string; the message of the claim exists only in the log
call, never in the result. -/
theorem empty_testcases_error_field_counterexample :
    (Judger.get_result [(Language.Python, pythonConfig)] emptySub
        okCompileOracle).result.judge = JudgeStatus.SystemError ∧
    (Judger.get_result [(Language.Python, pythonConfig)] emptySub
        okCompileOracle).result.error = "" ∧
    (Judger.get_result [(Language.Python, pythonConfig)] emptySub
        okCompileOracle).result.error ≠ "No testcases provided" ∧
    (Judger.get_result [(Language.Python, pythonConfig)] emptySub
        okCompileOracle).result.testcases = [] :=
  ⟨rfl, rfl, by decide, rfl⟩

/-- The success branch of `Judger.compile`: an Accepted compile response
carrying the artifact id sets `compiled_file` and leaves the judge
untouched. -/
theorem compileStep_success (cfg : LanguageConfig) (rr : SandboxResult)
    (m : List (String × String)) (fid : String) (j : Judger.Inst)
    (hc : j.st.compiled_file = none)
    (hst : rr.status = SandboxStatus.Accepted) (hfi : rr.fileIds = some m)
    (hlk : m.lookup cfg.compiled_filename = some fid) :
    Judger.compileStep cfg (Except.ok rr) j =
      { j with
        st :=
          { j.st with
            compiled_file := some fid
            created := j.st.created ++ [fid]
            runCalls := j.st.runCalls + 1 } } := by
  unfold Judger.compileStep
  rw [hc]
  simp [hst, hfi, hlk]

/-- C5 amended: for every submission with an empty testcase list whose
compile phase (when the language needs one) succeeds, the run terminates
with overall SystemError, an empty testcase-result list, and
`result.error` left as the default empty string rather than
"No testcases provided". -/
theorem empty_testcases_system_error (reg : List (Language × LanguageConfig))
    (sub : Submission) (orc : RunOracle) (cfg : LanguageConfig)
    (hlang : reg.lookup sub.language = some cfg)
    (hempty : sub.testcases = [])
    (hcompile : cfg.need_compile = true →
      ∃ rr m fid, orc.compileResult = Except.ok rr ∧
        rr.status = SandboxStatus.Accepted ∧ rr.fileIds = some m ∧
        m.lookup cfg.compiled_filename = some fid) :
    (Judger.get_result reg sub orc).result.judge = JudgeStatus.SystemError ∧
    (Judger.get_result reg sub orc).result.error = "" ∧
    (Judger.get_result reg sub orc).result.testcases = [] := by
  have hcfg : LanguageRegistry.get_config reg sub.language = Except.ok cfg := by
    simp [LanguageRegistry.get_config, hlang]
  by_cases hnc : cfg.need_compile
  · obtain ⟨rr, m, fid, hcr, hst, hfi, hlk⟩ := hcompile hnc
    refine ⟨?_, ?_, ?_⟩ <;>
      simp [Judger.get_result, Judger.init, hcfg, Except.toOption,
        Judger.run, Judger.compileStep, hnc, hempty, hcr, hst, hfi, hlk,
        Judger.toResult]
  · have hnc2 : cfg.need_compile = false := by simpa using hnc
    refine ⟨?_, ?_, ?_⟩ <;>
      simp [Judger.get_result, Judger.init, hcfg, Except.toOption,
        Judger.run, hnc2, hempty, Judger.toResult]

/-- C5 witness: the amended statement applied to the concrete
empty-testcase run. -/
theorem empty_testcases_system_error_witness :
    (Judger.get_result [(Language.Python, pythonConfig)] emptySub
        okCompileOracle).result.judge = JudgeStatus.SystemError ∧
    (Judger.get_result [(Language.Python, pythonConfig)] emptySub
        okCompileOracle).result.testcases = [] :=
  have h := empty_testcases_system_error [(Language.Python, pythonConfig)]
    emptySub okCompileOracle pythonConfig rfl rfl
    (fun _ => ⟨_, _, "bin1", rfl, rfl, rfl, rfl⟩)
  ⟨h.1, h.2.2⟩

/-- C10: for a submission whose language tag is not registered, the
constructor catches the lookup failure and records SystemError, and
`get_result` returns that result with no testcase entries, making no
sandbox call and scheduling no deletion. -/
theorem unregistered_language_system_error
    (reg : List (Language × LanguageConfig)) (sub : Submission)
    (orc : RunOracle) (h : reg.lookup sub.language = none) :
    (Judger.init reg sub).st.judge = JudgeStatus.SystemError ∧
    (Judger.get_result reg sub orc).result =
      { sid := sub.sid, judge := JudgeStatus.SystemError } ∧
    (Judger.get_result reg sub orc).runCalls = 0 ∧
    (Judger.get_result reg sub orc).deletes = [] := by
  have hcfg : LanguageRegistry.get_config reg sub.language =
      Except.error "ValueError: language is not registered" := by
    simp [LanguageRegistry.get_config, h]
  refine ⟨?_, ?_, ?_, ?_⟩ <;>
    simp [Judger.init, Judger.get_result, hcfg, Except.toOption,
      Judger.toResult]

/-- C10 witness: the unregistered-language behavior on an empty registry. -/
theorem unregistered_language_system_error_witness :
    (Judger.get_result [] emptySub okCompileOracle).result =
      { sid := 1, judge := JudgeStatus.SystemError } ∧
    (Judger.get_result [] emptySub okCompileOracle).runCalls = 0 :=
  have h := unregistered_language_system_error [] emptySub okCompileOracle rfl
  ⟨h.2.1, h.2.2.1⟩

/-- Testcases for the cleanup counterexample run. -/
def leakT0 : Testcase :=
  { uuid := "u0", input := FileRef.memoryFile "1", output := FileRef.memoryFile "2" }

/-- Second testcase of the cleanup counterexample run. -/
def leakT1 : Testcase :=
  { uuid := "u1", input := FileRef.memoryFile "3", output := FileRef.memoryFile "4" }

/-- A two-testcase submission used for the cleanup run. -/
def leakSub : Submission :=
  { sid := 2, timeLimit := 1000, memoryLimit := 32768,
    testcases := [leakT0, leakT1], language := Language.Python, code := "x" }

/-- An oracle under which compilation succeeds (artifact bin1), the
checker compiles to chk, the first testcase is accepted with stdout
capture out0, and the run of the second testcase is accepted with stdout
capture out1 but the checker call raises. -/
def leakOracle : RunOracle :=
  { compileResult := Except.ok
      { status := SandboxStatus.Accepted,
        fileIds := some [("Main.pyc", "bin1")] }
    checkerCompile := Except.ok "chk"
    tc := fun i =>
      if i = 0 then
        { runResult := Except.ok
            { status := SandboxStatus.Accepted, time := 1000000,
              memory := 2048, fileIds := some [("stdout", "out0")] }
          checkResult := Except.ok JudgeStatus.Accepted
          pairResult := Except.error "unreached" }
      else
        { runResult := Except.ok
            { status := SandboxStatus.Accepted, time := 1000000,
              memory := 2048, fileIds := some [("stdout", "out1")] }
          checkResult := Except.error "checker crashed"
          pairResult := Except.error "unreached" } }

/-- C4 counterexample: in a completed run the checker binary chk and the
stdout capture out1 of the testcase whose checker call raised are created
in the sandbox but never scheduled for deletion; only the compiled
artifact bin1 and the capture out0 are deleted. -/
theorem cleanup_leaks_counterexample :
    "chk" ∈ (Judger.get_result [(Language.Python, pythonConfig)] leakSub
        leakOracle).created ∧
    "chk" ∉ (Judger.get_result [(Language.Python, pythonConfig)] leakSub
        leakOracle).deletes ∧
    "out1" ∈ (Judger.get_result [(Language.Python, pythonConfig)] leakSub
        leakOracle).created ∧
    "out1" ∉ (Judger.get_result [(Language.Python, pythonConfig)] leakSub
        leakOracle).deletes ∧
    "bin1" ∈ (Judger.get_result [(Language.Python, pythonConfig)] leakSub
        leakOracle).deletes ∧
    "out0" ∈ (Judger.get_result [(Language.Python, pythonConfig)] leakSub
        leakOracle).deletes := by
  decide

/-- C4 amended: before `get_result` returns, cleanup deletes the compiled
user artifact and every delete task scheduled during the loop, and a
testcase run that completes without raising schedules exactly the files
it created; the checker binary, and the stdout capture of a testcase
whose checker call raised, are not scheduled by the pipeline. -/
theorem pipeline_cleanup (reg : List (Language × LanguageConfig))
    (sub : Submission) (orc : RunOracle) (cfg : LanguageConfig)
    (cf : Option String) (orc1 : TestcaseOracle) (tc1 : Testcase) :
    (∀ f, (Judger.get_result reg sub orc).compiled_file = some f →
      f ∈ (Judger.get_result reg sub orc).deletes) ∧
    (∀ f, f ∈ (Judger.get_result reg sub orc).scheduled →
      f ∈ (Judger.get_result reg sub orc).deletes) ∧
    (∀ res, (Judger.run_testcase_tradition cfg sub cf orc1 tc1).outcome =
        Except.ok res →
      (Judger.run_testcase_tradition cfg sub cf orc1 tc1).scheduled =
        (Judger.run_testcase_tradition cfg sub cf orc1 tc1).created) := by
  refine ⟨?_, ?_, ?_⟩
  · intro f hf
    by_cases hp : (Judger.init reg sub).st.judge = JudgeStatus.Pending
    · simp only [Judger.get_result, if_pos hp] at hf ⊢
      simp [hf]
    · simp only [Judger.get_result, if_neg hp] at hf
      simp [Judger.init] at hf
  · intro f hf
    by_cases hp : (Judger.init reg sub).st.judge = JudgeStatus.Pending
    · simp only [Judger.get_result, if_pos hp] at hf ⊢
      simp [hf]
    · simp only [Judger.get_result, if_neg hp] at hf
      simp [Judger.init] at hf
  · intro res hres
    simp only [Judger.run_testcase_tradition] at hres ⊢
    cases h1 : orc1.runResult with
    | error e => simp [h1] at hres
    | ok rr =>
      simp only [h1] at hres ⊢
      cases h2 : rr.fileIds with
      | none => simp [h2] at hres
      | some fl =>
        simp only [h2] at hres ⊢
        cases h3 : fl.lookup "stdout" with
        | none => simp [h3] at hres
        | some fid =>
          simp only [h3] at hres ⊢
          by_cases h4 : rr.status = SandboxStatus.Accepted
          · simp only [if_pos h4] at hres ⊢
            cases h5 : orc1.checkResult with
            | error e => simp [h5] at hres
            | ok jd => simp [h5]
          · simp only [if_neg h4] at hres ⊢

/-- C4 witness: the amended statement at the concrete run, deleting the
compiled artifact and matching scheduled to created on the accepted
testcase. -/
theorem pipeline_cleanup_witness :
    "bin1" ∈ (Judger.get_result [(Language.Python, pythonConfig)] leakSub
        leakOracle).deletes ∧
    (Judger.run_testcase_tradition pythonConfig leakSub (some "bin1")
        (leakOracle.tc 0) leakT0).scheduled =
      (Judger.run_testcase_tradition pythonConfig leakSub (some "bin1")
        (leakOracle.tc 0) leakT0).created :=
  have h := pipeline_cleanup [(Language.Python, pythonConfig)] leakSub
    leakOracle pythonConfig (some "bin1") (leakOracle.tc 0) leakT0
  ⟨h.1 "bin1" rfl,
    h.2.2 { uuid := "u0", time := 1, memory := 2, judge := JudgeStatus.Accepted }
      rfl⟩

/-- Once skipping is engaged, the rest of the loop only records Skipped
results with zero resources, in input order. -/
theorem testcase_loop_skipped (runTC : Nat → Testcase → TCRun) :
    ∀ (ts : List Testcase) (i : Nat),
      (Judger.testcase_loop runTC i true ts).results =
        ts.map (fun t =>
          { uuid := t.uuid, time := 0, memory := 0,
            judge := JudgeStatus.Skipped }) := by
  intro ts
  induction ts with
  | nil => intro i; rfl
  | cons t rest ih =>
    intro i
    simp [Judger.testcase_loop, ih]

/-- The loop records one result per testcase, at the position of that
testcase and carrying its uuid, provided each run outcome carries the uuid of its
testcase. -/
theorem testcase_loop_uuids (runTC : Nat → Testcase → TCRun)
    (huuid : ∀ i t res, (runTC i t).outcome = Except.ok res → res.uuid = t.uuid) :
    ∀ (ts : List Testcase) (i : Nat) (sk : Bool),
      (Judger.testcase_loop runTC i sk ts).results.map TestcaseResult.uuid =
        ts.map Testcase.uuid := by
  intro ts
  induction ts with
  | nil => intro i sk; rfl
  | cons t rest ih =>
    intro i sk
    cases sk with
    | true => simp [Judger.testcase_loop, ih]
    | false =>
      cases ho : (runTC i t).outcome with
      | ok res =>
        simp [Judger.testcase_loop, Judger.catch_testcase, ho, ih,
          huuid i t res ho]
      | error e =>
        simp [Judger.testcase_loop, Judger.catch_testcase, ho, ih]

/-- While no earlier result has a skip-triggering verdict, position j of
the loop output is the (exception-caught) outcome of actually running
testcase j; in particular an earlier SystemError does not suppress it. -/
theorem testcase_loop_runs_until_skip (runTC : Nat → Testcase → TCRun) :
    ∀ (ts : List Testcase) (i0 j : Nat) (tj : Testcase),
      (∀ k rk, k < j →
        (Judger.testcase_loop runTC i0 false ts).results[k]? = some rk →
        Judger.SKIP_STATUS rk.judge = false) →
      ts[j]? = some tj →
      (Judger.testcase_loop runTC i0 false ts).results[j]? =
        some (Judger.catch_testcase tj (runTC (i0 + j) tj).outcome) := by
  intro ts
  induction ts with
  | nil =>
    intro i0 j tj hpre hj
    simp at hj
  | cons t rest ih =>
    intro i0 j tj hpre hj
    cases j with
    | zero =>
      simp only [List.getElem?_cons_zero, Option.some.injEq] at hj
      subst hj
      simp [Judger.testcase_loop]
    | succ j2 =>
      have h0 : Judger.SKIP_STATUS
          (Judger.catch_testcase t (runTC i0 t).outcome).judge = false := by
        apply hpre 0 _ (Nat.succ_pos j2)
        simp [Judger.testcase_loop]
      have hres : (Judger.testcase_loop runTC i0 false (t :: rest)).results =
          Judger.catch_testcase t (runTC i0 t).outcome ::
            (Judger.testcase_loop runTC (i0 + 1) false rest).results := by
        simp [Judger.testcase_loop, h0]
      rw [List.getElem?_cons_succ] at hj
      have hpre2 : ∀ k rk, k < j2 →
          (Judger.testcase_loop runTC (i0 + 1) false rest).results[k]? = some rk →
          Judger.SKIP_STATUS rk.judge = false := by
        intro k rk hk hkk
        apply hpre (k + 1) rk (Nat.succ_lt_succ hk)
        rw [hres, List.getElem?_cons_succ]
        exact hkk
      have harith : i0 + 1 + j2 = i0 + (j2 + 1) := by omega
      rw [hres, List.getElem?_cons_succ, ih (i0 + 1) j2 tj hpre2 hj, harith]

/-- Once some position i has a verdict in SKIP_STATUS, every later
position j is recorded as Skipped with zero resources and the uuid of
testcase j. -/
theorem testcase_loop_skips_after (runTC : Nat → Testcase → TCRun) :
    ∀ (ts : List Testcase) (i0 i j : Nat) (ri : TestcaseResult) (tj : Testcase),
      i < j →
      (Judger.testcase_loop runTC i0 false ts).results[i]? = some ri →
      Judger.SKIP_STATUS ri.judge = true →
      ts[j]? = some tj →
      (Judger.testcase_loop runTC i0 false ts).results[j]? =
        some
          { uuid := tj.uuid, time := 0, memory := 0,
            judge := JudgeStatus.Skipped } := by
  intro ts
  induction ts with
  | nil =>
    intro i0 i j ri tj hij hri hskip htj
    simp at htj
  | cons t rest ih =>
    intro i0 i j ri tj hij hri hskip htj
    cases j with
    | zero => omega
    | succ j2 =>
      rw [List.getElem?_cons_succ] at htj
      cases hflag : Judger.SKIP_STATUS
          (Judger.catch_testcase t (runTC i0 t).outcome).judge with
      | true =>
        have hres : (Judger.testcase_loop runTC i0 false (t :: rest)).results =
            Judger.catch_testcase t (runTC i0 t).outcome ::
              (Judger.testcase_loop runTC (i0 + 1) true rest).results := by
          simp [Judger.testcase_loop, hflag]
        rw [hres, List.getElem?_cons_succ,
          testcase_loop_skipped runTC rest (i0 + 1), List.getElem?_map, htj]
        rfl
      | false =>
        have hres : (Judger.testcase_loop runTC i0 false (t :: rest)).results =
            Judger.catch_testcase t (runTC i0 t).outcome ::
              (Judger.testcase_loop runTC (i0 + 1) false rest).results := by
          simp [Judger.testcase_loop, hflag]
        cases i with
        | zero =>
          rw [hres, List.getElem?_cons_zero] at hri
          obtain rfl := Option.some.inj hri
          rw [hskip] at hflag
          exact absurd hflag (by simp)
        | succ i2 =>
          rw [hres, List.getElem?_cons_succ] at hri
          rw [hres, List.getElem?_cons_succ]
          exact ih (i0 + 1) i2 j2 ri tj (by omega) hri hskip htj

/-- Both testcase runners stamp the uuid of the testcase on a successful
result. -/
theorem run_testcase_uuid (cfg : LanguageConfig) (sub : Submission)
    (cf chk : Option String) (orc1 : TestcaseOracle) (t : Testcase)
    (res : TestcaseResult)
    (h : (Judger.run_testcase cfg sub cf chk orc1 t).outcome = Except.ok res) :
    res.uuid = t.uuid := by
  unfold Judger.run_testcase at h
  by_cases hty : sub.type = ProblemType.Interaction
  · simp only [if_pos hty, Judger.run_testcase_interaction] at h
    cases h1 : orc1.pairResult with
    | error e => simp [h1] at h
    | ok pr =>
      simp only [h1] at h
      obtain rfl := Except.ok.inj h
      rfl
  · simp only [if_neg hty, Judger.run_testcase_tradition] at h
    cases h1 : orc1.runResult with
    | error e => simp [h1] at h
    | ok rr =>
      simp only [h1] at h
      cases h2 : rr.fileIds with
      | none => simp [h2] at h
      | some fl =>
        simp only [h2] at h
        cases h3 : fl.lookup "stdout" with
        | none => simp [h3] at h
        | some fid =>
          simp only [h3] at h
          by_cases h4 : rr.status = SandboxStatus.Accepted
          · simp only [if_pos h4] at h
            cases h5 : orc1.checkResult with
            | error e => simp [h5] at h
            | ok jd =>
              simp only [h5] at h
              obtain rfl := Except.ok.inj h
              rfl
          · simp only [if_neg h4] at h
            obtain rfl := Except.ok.inj h
            rfl

/-- C3: in the run loop, results keep input order and uuids; after a
verdict in {TLE, MLE, OLE} at position i, every later position is
recorded Skipped with zero time and memory; and while no earlier verdict
is skip-triggering (SystemError in particular is not), position j is the
caught outcome of actually running testcase j. -/
theorem testcase_skipping (cfg : LanguageConfig) (sub : Submission)
    (cf chk : Option String) (orc : RunOracle) :
    (Judger.runLoop cfg sub cf chk orc).results.map TestcaseResult.uuid =
      sub.testcases.map Testcase.uuid ∧
    (∀ (i j : Nat) (ri : TestcaseResult) (tj : Testcase), i < j →
      (Judger.runLoop cfg sub cf chk orc).results[i]? = some ri →
      Judger.SKIP_STATUS ri.judge = true →
      sub.testcases[j]? = some tj →
      (Judger.runLoop cfg sub cf chk orc).results[j]? =
        some
          { uuid := tj.uuid, time := 0, memory := 0,
            judge := JudgeStatus.Skipped }) ∧
    (∀ (j : Nat) (tj : Testcase),
      (∀ (k : Nat) (rk : TestcaseResult), k < j →
        (Judger.runLoop cfg sub cf chk orc).results[k]? = some rk →
        Judger.SKIP_STATUS rk.judge = false) →
      sub.testcases[j]? = some tj →
      (Judger.runLoop cfg sub cf chk orc).results[j]? =
        some (Judger.catch_testcase tj
          (Judger.run_testcase cfg sub cf chk (orc.tc j) tj).outcome)) ∧
    Judger.SKIP_STATUS JudgeStatus.SystemError = false := by
  refine ⟨?_, ?_, ?_, rfl⟩
  · exact testcase_loop_uuids _
      (fun i t res h => run_testcase_uuid cfg sub cf chk (orc.tc i) t res h)
      sub.testcases 0 false
  · intro i j ri tj hij hri hskip htj
    exact testcase_loop_skips_after _ sub.testcases 0 i j ri tj hij hri hskip htj
  · intro j tj hpre htj
    have h := testcase_loop_runs_until_skip _ sub.testcases 0 j tj hpre htj
    simpa using h

/-- A submission whose first testcase will exceed the time limit. -/
def skipSub : Submission :=
  { sid := 3, timeLimit := 1000, memoryLimit := 32768,
    testcases := [leakT0, leakT1], language := Language.Python, code := "x" }

/-- An oracle whose every testcase run reports Time Limit Exceeded. -/
def tleOracle : RunOracle :=
  { compileResult := Except.ok
      { status := SandboxStatus.Accepted,
        fileIds := some [("Main.pyc", "bin1")] }
    checkerCompile := Except.ok "chk"
    tc := fun _ =>
      { runResult := Except.ok
          { status := SandboxStatus.TimeLimitExceeded, time := 0,
            memory := 0, fileIds := some [("stdout", "outX")] }
        checkResult := Except.error "unreached"
        pairResult := Except.error "unreached" } }

/-- C3 witness: after the TimeLimitExceeded verdict of testcase one, the
second position is recorded Skipped with zero resources and its own uuid. -/
theorem testcase_skipping_witness :
    (Judger.runLoop pythonConfig skipSub (some "bin1") (some "chk")
        tleOracle).results[1]? =
      some
        { uuid := "u1", time := 0, memory := 0,
          judge := JudgeStatus.Skipped } :=
  (testcase_skipping pythonConfig skipSub (some "bin1") (some "chk")
      tleOracle).2.1 0 1
    { uuid := "u0", time := 0, memory := 0,
      judge := JudgeStatus.TimeLimitExceeded }
    leakT1 (by decide) rfl rfl rfl

/-- C8 witness: the amended behavior at a concrete 500 response. -/
theorem client_status_handling_witness :
    SandboxClient.run_command (fun _ => []) { status := 500, body := "oops" } =
      Except.error "aiohttp.ClientResponseError: 500" :=
  (client_status_handling { status := 500, body := "oops" } (fun _ => [])
    (fun _ => [])).1 (by decide)

end PTOJ
